import Mathlib

/-!
Verification development for the NiroSubs `ns-infra` tenant health evaluator.

The repository's decision logic lives in two Node scripts:
* `scripts/tenant-health-production.js` (class `ProductionTenantHealth`), and
* the tenant health monitor (class `TenantHealthMonitor`).

Both scripts read tenant / tenant_users / tenant_usage_stats rows from
Postgres, classify capacity utilization per tenant, detect isolation
violations and orphaned rows, and report via console plus a process exit
code.  This file shallowly embeds the SQL queries and the JavaScript
control flow over an explicit database snapshot (lists of rows), and
proves or refutes the specification's claims about that logic.

SQL numerics: the capacity CASE expressions compare an integer count with
`limit * 0.8` (resp. `0.9`), where `0.8` is a Postgres `numeric` literal,
so the comparison is exact decimal arithmetic; we embed it as the
equivalent integer comparison (both sides scaled by 10).  Counts are
`Int` (SQL integers).
-/

namespace NsInfra

/-- The utilization classification used by both scripts
(`capacity_status` / `user_status` / `api_status` columns). -/
inductive UtilizationStatus
  | UNLIMITED
  | OK
  | HIGH
  | EXCEEDED
deriving DecidableEq, Repr

/-- Severity order of the statuses for the monotonicity statements:
OK < HIGH < EXCEEDED (UNLIMITED only arises for `limit = -1`). -/
def statusRank : UtilizationStatus → Nat
  | .UNLIMITED => 0
  | .OK => 1
  | .HIGH => 2
  | .EXCEEDED => 3

/-- SQL `COALESCE(t.limits->>users, 999999)::int`: a missing limit key
defaults to 999999. -/
def coalesceLimit (lim : Option Int) : Int := lim.getD 999999

/-- The monitor's per-dimension classifier (`user_status` / `api_status`
in `checkTenantPerformance`):
`CASE WHEN max_users = -1 THEN UNLIMITED
      WHEN user_count >= max_users THEN EXCEEDED
      WHEN user_count > max_users * 0.8 THEN HIGH
      ELSE OK END`.
`0.8` is a Postgres `numeric` literal, so `count > m * 0.8` is an exact
decimal comparison, embedded as the equivalent `10 * count > 8 * m`. -/
def monStatusDim (count : Int) (lim : Option Int) : UtilizationStatus :=
  let m := coalesceLimit lim
  if m = -1 then .UNLIMITED
  else if count ≥ m then .EXCEEDED
  else if 10 * count > 8 * m then .HIGH
  else .OK

/-- The production script's classifier (`capacity_status` in
`checkTenantLimits`):
`CASE WHEN t.limits->>users = -1 THEN UNLIMITED
      WHEN COUNT(tu.id) > max_users THEN EXCEEDED
      WHEN COUNT(tu.id) > max_users * 0.9 THEN HIGH
      ELSE OK END`.
Note the strict `>` in the EXCEEDED branch, and that the UNLIMITED test is
on the raw text of the limit (text equal to -1), i.e. `lim = some (-1)`.
`count > m * 0.9` is again exact decimal arithmetic, embedded as
`10 * count > 9 * m`. -/
def prodStatusDim (count : Int) (lim : Option Int) : UtilizationStatus :=
  if lim = some (-1) then .UNLIMITED
  else
    let m := coalesceLimit lim
    if count > m then .EXCEEDED
    else if 10 * count > 9 * m then .HIGH
    else .OK

/-- A row of the `tenants` table, with the two JSON limit keys the
scripts read (`limits->>users`, `limits->>apiCalls`); `none` models a
missing key (SQL NULL from the `->>` operator). -/
structure TenantRow where
  id : Int
  name : String
  plan : String
  status : String
  limits_users : Option Int
  limits_apiCalls : Option Int
deriving DecidableEq, Repr

/-- A row of the `tenant_users` table. -/
structure TenantUserRow where
  id : Int
  tenant_id : Int
  status : String
deriving DecidableEq, Repr

/-- A row of the `tenant_usage_stats` table.  `recent` models
`stat_date >= CURRENT_DATE - 30` (the only use of `stat_date`), so a run
is a pure function of the snapshot. -/
structure UsageStatRow where
  tenant_id : Int
  api_calls_count : Int
  recent : Bool
deriving DecidableEq, Repr

/-- A database snapshot: the three tables the health checks query. -/
structure Db where
  tenants : List TenantRow
  tenant_users : List TenantUserRow
  tenant_usage_stats : List UsageStatRow
deriving DecidableEq, Repr

/-- SQL `FROM tenants t WHERE t.status = active` (in table order). -/
def Db.activeTenants (db : Db) : List TenantRow :=
  db.tenants.filter (fun t => t.status == "active")

/-- SQL `SELECT COUNT(*) FROM tenants WHERE status = active`
(`checkDatabaseHealth`). -/
def activeTenantCount (db : Db) : Nat := db.activeTenants.length

/-- SQL `COUNT(tu.id)` over
`LEFT JOIN tenant_users tu ON tu.tenant_id = t.id AND tu.status = active`
grouped by tenant (the production capacity query's `current_users`). -/
def activeUserCount (db : Db) (t : TenantRow) : Nat :=
  (db.tenant_users.filter (fun tu => tu.tenant_id == t.id && tu.status == "active")).length

/-- The production isolation query counts
`COUNT(CASE WHEN tu.tenant_id != t.id THEN 1 END)` over
`LEFT JOIN tenant_users tu ON tu.tenant_id = t.id`: the join condition
forces equality, so matched rows never satisfy the CASE (and the padding
row of an empty LEFT JOIN has a NULL `tu.tenant_id`, also not counted). -/
def isolationMismatchCount (db : Db) (t : TenantRow) : Nat :=
  ((db.tenant_users.filter (fun tu => tu.tenant_id == t.id)).filter
    (fun tu => tu.tenant_id != t.id)).length

/-- Rows of the production isolation query after
`WHERE isolation_violations > 0`. -/
def prodIsolationRows (db : Db) : List TenantRow :=
  db.activeTenants.filter (fun t => decide (0 < isolationMismatchCount db t))

/-- Issues pushed by `checkTenantIsolation` when the query succeeds:
one `Tenant isolation violation: <name>` per returned row. -/
def prodIsoIssues (db : Db) : List String :=
  (prodIsolationRows db).map (fun t => "Tenant isolation violation: " ++ t.name)

/-- `capacity_status` of one tenant in the production capacity query. -/
def prodCapStatus (db : Db) (t : TenantRow) : UtilizationStatus :=
  prodStatusDim (activeUserCount db t : Int) t.limits_users

/-- Active tenants whose production `capacity_status` is EXCEEDED. -/
def prodExceededTenants (db : Db) : List TenantRow :=
  db.activeTenants.filter (fun t => prodCapStatus db t == .EXCEEDED)

/-- Active tenants whose production `capacity_status` is HIGH. -/
def prodHighTenants (db : Db) : List TenantRow :=
  db.activeTenants.filter (fun t => prodCapStatus db t == .HIGH)

/-- The production capacity rows in reporting order:
`ORDER BY CASE capacity_status WHEN EXCEEDED THEN 1 WHEN HIGH THEN 2
ELSE 3 END` — a stable sort on the three-valued key, i.e. the EXCEEDED
rows, then the HIGH rows, then the rest, each group in table order. -/
def prodSortedCapRows (db : Db) : List TenantRow :=
  prodExceededTenants db ++ prodHighTenants db ++
    db.activeTenants.filter
      (fun t => !(prodCapStatus db t == .EXCEEDED) && !(prodCapStatus db t == .HIGH))

/-- Issues pushed by `checkTenantLimits` when the query succeeds: the
`forEach` over the ordered rows pushes
`Tenant capacity exceeded: <name>` exactly for EXCEEDED rows. -/
def prodCapIssues (db : Db) : List String :=
  (prodSortedCapRows db).filterMap
    (fun t => if prodCapStatus db t == .EXCEEDED
              then some ("Tenant capacity exceeded: " ++ t.name) else none)

/-- Orphaned `tenant_users` rows: both scripts run
`FROM tenant_users tu LEFT JOIN tenants t ON tu.tenant_id = t.id
WHERE t.id IS NULL`, i.e. rows whose `tenant_id` matches no tenant
(of any status). -/
def orphanUserCount (db : Db) : Nat :=
  (db.tenant_users.filter
    (fun tu => !(db.tenants.any (fun t => t.id == tu.tenant_id)))).length

/-- Issues pushed by `checkDatabaseHealth` when its queries succeed: only
the zero-active-tenants case pushes an issue
(the message `No active tenants in database`); a positive orphan count is logged as
a warning but pushes nothing. -/
def prodHealthIssues (db : Db) : List String :=
  if activeTenantCount db = 0 then ["No active tenants in database"] else []

/-- One invocation of `runProductionHealthCheck` after a successful
`connect()`: the snapshot plus, per check, an optional error message
(`some m` models that check's query throwing with message `m`, caught by
the check's own `try/catch`). -/
structure ProdEnv where
  db : Db
  isoFail : Option String
  capFail : Option String
  healthFail : Option String
deriving DecidableEq, Repr

/-- Issues contributed by `checkTenantIsolation` (catch branch pushes
`Isolation check failure: <msg>`). -/
def prodCheckIsoIssues (e : ProdEnv) : List String :=
  match e.isoFail with
  | some m => ["Isolation check failure: " ++ m]
  | none => prodIsoIssues e.db

/-- Issues contributed by `checkTenantLimits` (catch branch pushes
`Capacity check failure: <msg>`). -/
def prodCheckCapIssues (e : ProdEnv) : List String :=
  match e.capFail with
  | some m => ["Capacity check failure: " ++ m]
  | none => prodCapIssues e.db

/-- Issues contributed by `checkDatabaseHealth` (catch branch pushes
`Database health failure: <msg>`). -/
def prodCheckHealthIssues (e : ProdEnv) : List String :=
  match e.healthFail with
  | some m => ["Database health failure: " ++ m]
  | none => prodHealthIssues e.db

/-- State of `this.issues` at report time: the three checks run in sequence,
each appending its issues. -/
def prodIssues (e : ProdEnv) : List String :=
  prodCheckIsoIssues e ++ prodCheckCapIssues e ++ prodCheckHealthIssues e

/-- Production `generateProductionReport`: ready exactly when `this.issues`
is empty (`criticalIssues === 0`). -/
def productionReady (e : ProdEnv) : Bool := (prodIssues e).isEmpty

/-- The process exit code of the production script's main:
`process.exit(isHealthy ? 0 : 1)`, and the surrounding `.catch` exits 1 —
in particular `none` (the database connection could not be established,
`connect()` threw before any check ran) exits 1. -/
def prodExitCode : Option ProdEnv → Nat
  | none => 1
  | some e => if productionReady e then 0 else 1

/-! ## The monitor (`TenantHealthMonitor`) -/

/-- SQL values as seen through a `pg` result row (a JS object):
the leakage-query columns are an id, a name and two counts. -/
inductive SqlValue
  | int (n : Int)
  | str (s : String)
deriving DecidableEq, Repr

/-- A row of the monitor's leakage query
(`SELECT * FROM tenant_data_counts WHERE ...`): its columns are
`tenant_id`, `tenant_name`, `mismatched_users`, `mismatched_usage`. -/
structure LeakageRow where
  tenant_id : Int
  tenant_name : String
  mismatched_users : Int
  mismatched_usage : Int
deriving DecidableEq, Repr

/-- The JS object produced by `pg` for a leakage row: exactly the
query's output columns, in order. -/
def LeakageRow.fields (r : LeakageRow) : List (String × SqlValue) :=
  [("tenant_id", .int r.tenant_id),
   ("tenant_name", .str r.tenant_name),
   ("mismatched_users", .int r.mismatched_users),
   ("mismatched_usage", .int r.mismatched_usage)]

/-- JS property access `row.<k>` on a leakage row: `none` when the key
is not a column of the row (JS `undefined`). -/
def jsGet (r : LeakageRow) (k : String) : Option SqlValue :=
  ((r.fields).find? (fun p => p.1 == k)).map (fun p => p.2)

/-- How a JS template literal renders an interpolated value: a missing
property prints as `undefined`. -/
def jsInterp : Option SqlValue → String
  | none => "undefined"
  | some (.int n) => toString n
  | some (.str s) => s

/-- The violation message the monitor builds per leakage row:
a template literal interpolating `tenant_name`, `mismatched_users` and
`mismatched_subscriptions` — note the last access reads the key
`mismatched_subscriptions`. -/
def leakageViolationMessage (r : LeakageRow) : String :=
  "Tenant " ++ jsInterp (jsGet r ("tenant_name")) ++ ": " ++
    jsInterp (jsGet r ("mismatched_users")) ++ " user violations, " ++
    jsInterp (jsGet r ("mismatched_subscriptions")) ++ " subscription violations"

/-- LEFT JOIN padding: an empty match list yields a single all-NULL row. -/
def leftJoinRows {α : Type} (l : List α) : List (Option α) :=
  if l.isEmpty then [none] else l.map some

/-- The row set of the monitor's leakage query for one tenant `t`:
`FROM tenants t LEFT JOIN tenant_users tu ON tu.tenant_id = t.id
LEFT JOIN tenant_usage_stats tus ON tus.tenant_id = t.id` — both join
conditions depend only on `t`, so the joined rows are the product of the
two padded match lists (this reproduces the query's join fan-out). -/
def monLeakJoined (db : Db) (t : TenantRow) :
    List (Option TenantUserRow × Option UsageStatRow) :=
  (leftJoinRows (db.tenant_users.filter (fun tu => tu.tenant_id == t.id))).flatMap
    (fun otu =>
      (leftJoinRows (db.tenant_usage_stats.filter (fun s => s.tenant_id == t.id))).map
        (fun os => (otu, os)))

/-- SQL `COUNT(CASE WHEN tu.tenant_id != t.id THEN 1 END)` over the joined
rows (NULL `tu` rows are not counted). -/
def monMismatchedUsers (db : Db) (t : TenantRow) : Nat :=
  (monLeakJoined db t).countP
    (fun p => match p.1 with
              | some tu => tu.tenant_id != t.id
              | none => false)

/-- SQL `COUNT(CASE WHEN tus.tenant_id != t.id THEN 1 END)` over the joined
rows. -/
def monMismatchedUsage (db : Db) (t : TenantRow) : Nat :=
  (monLeakJoined db t).countP
    (fun p => match p.2 with
              | some s => s.tenant_id != t.id
              | none => false)

/-- The rows the leakage query returns
(`WHERE mismatched_users > 0 OR mismatched_usage > 0`). -/
def monLeakageRows (db : Db) : List LeakageRow :=
  db.activeTenants.filterMap (fun t =>
    let mu := monMismatchedUsers db t
    let ms := monMismatchedUsage db t
    if 0 < mu || 0 < ms
    then some ⟨t.id, t.name, (mu : Int), (ms : Int)⟩ else none)

/-- Orphaned `tenant_usage_stats` rows (second arm of the monitor's
orphan UNION query). -/
def orphanStatCount (db : Db) : Nat :=
  (db.tenant_usage_stats.filter
    (fun s => !(db.tenants.any (fun t => t.id == s.tenant_id)))).length

/-- The `violations` list built by the monitor's `checkTenantIsolation`
when its queries succeed: one message per leakage row, then (per orphan
UNION row with `orphan_count > 0`) one message per table. -/
def monViolations (db : Db) : List String :=
  (monLeakageRows db).map leakageViolationMessage ++
    (if 0 < orphanUserCount db
     then [toString (orphanUserCount db) ++ " orphaned records in tenant_users table"]
     else []) ++
    (if 0 < orphanStatCount db
     then [toString (orphanStatCount db) ++ " orphaned records in tenant_usage_stats table"]
     else [])

/-- An entry of `healthMetrics.alerts`.  The wall-clock `timestamp`
field is omitted (it carries no decision logic). -/
structure Alert where
  type : String
  service : String
  message : String
deriving DecidableEq, Repr

/-- The alert `checkTenantIsolation` pushes when `violations` is
non-empty. -/
def monIsoAlerts (db : Db) : List Alert :=
  if (monViolations db).isEmpty then []
  else [⟨"CRITICAL", "Database",
         "Tenant isolation violations: " ++ String.intercalate (", ") (monViolations db)⟩]

/-- The row set of the monitor's performance query for one tenant:
`LEFT JOIN tenant_users tu ON tu.tenant_id = t.id AND tu.status = active
LEFT JOIN tenant_usage_stats tus ON tus.tenant_id = t.id AND
tus.stat_date >= CURRENT_DATE - 30` — again a product of the two padded
match lists (with the query's join fan-out). -/
def monPerfJoined (db : Db) (t : TenantRow) :
    List (Option TenantUserRow × Option UsageStatRow) :=
  (leftJoinRows (db.tenant_users.filter
      (fun tu => tu.tenant_id == t.id && tu.status == "active"))).flatMap
    (fun otu =>
      (leftJoinRows (db.tenant_usage_stats.filter
          (fun s => s.tenant_id == t.id && s.recent))).map
        (fun os => (otu, os)))

/-- SQL `COUNT(tu.id)` over the performance join (non-NULL `tu` rows). -/
def monUserCount (db : Db) (t : TenantRow) : Nat :=
  (monPerfJoined db t).countP (fun p => p.1.isSome)

/-- SQL `COALESCE(SUM(tus.api_calls_count), 0)` over the performance join. -/
def monApiCalls (db : Db) (t : TenantRow) : Int :=
  ((monPerfJoined db t).filterMap (fun p => p.2.map (fun s => s.api_calls_count))).sum

/-- The monitor's `user_status` column for one tenant. -/
def monUserStatus (db : Db) (t : TenantRow) : UtilizationStatus :=
  monStatusDim (monUserCount db t : Int) t.limits_users

/-- The monitor's `api_status` column for one tenant. -/
def monApiStatus (db : Db) (t : TenantRow) : UtilizationStatus :=
  monStatusDim (monApiCalls db t) t.limits_apiCalls

/-- The alerts `checkTenantPerformance` pushes: one CRITICAL alert per
tenant with an EXCEEDED dimension (`hasExceeded`); HIGH-only tenants are
counted as warnings in the console summary but push no alert.  The
query's `ORDER BY user_count DESC` only permutes rows; the report below
depends on alert counts only, so the snapshot order is used. -/
def monPerfAlerts (db : Db) : List Alert :=
  db.activeTenants.filterMap (fun t =>
    if monUserStatus db t == .EXCEEDED || monApiStatus db t == .EXCEEDED
    then some ⟨"CRITICAL", "Tenant Limits", "Tenant " ++ t.name ++ " has exceeded limits"⟩
    else none)

/-- Alerts pushed by one pass of the monitor's database checks
(service-health HTTP probes are external collaborators and out of the
evaluator's scope, per the spec). -/
def monRunAlerts (db : Db) : List Alert :=
  monIsoAlerts db ++ monPerfAlerts db

/-- The report printed by the monitor's `generateReport`. -/
structure MonReport where
  totalTenants : Nat
  criticalAlerts : Nat
  warningAlerts : Nat
  healthy : Bool
deriving DecidableEq, Repr

/-- Monitor `generateReport`: counts CRITICAL / WARNING entries of the
accumulated `healthMetrics.alerts`; healthy (returns `true`) iff no
CRITICAL alert. -/
def monGenerateReport (db : Db) (alerts : List Alert) : MonReport :=
  let c := (alerts.filter (fun a => a.type == "CRITICAL")).length
  let w := (alerts.filter (fun a => a.type == "WARNING")).length
  ⟨activeTenantCount db, c, w, c == 0⟩

/-- One call of `runFullHealthCheck` on an instance whose
`healthMetrics.alerts` currently holds `alerts`: the checks append their
alerts (the array is never cleared), then the report is generated from
the accumulated array. -/
def monRun (db : Db) (alerts : List Alert) : List Alert × MonReport :=
  let acc := alerts ++ monRunAlerts db
  (acc, monGenerateReport db acc)

/-! ## Utilization percentage (monitor performance query) -/

/-- Postgres `CAST(<float8> AS INTEGER)`: `rint`, round to nearest with
ties to even.  Modelled on exact rationals; it agrees with the float8
computation whenever the intermediate values are exactly representable
(as at every input used below). -/
def pgFloatToInt (q : ℚ) : ℤ :=
  if q - (⌊q⌋ : ℚ) < 1 / 2 then ⌊q⌋
  else if 1 / 2 < q - (⌊q⌋ : ℚ) then ⌊q⌋ + 1
  else if ⌊q⌋ % 2 = 0 then ⌊q⌋ else ⌊q⌋ + 1

/-- The monitor's `user_utilization` column:
`CASE WHEN max_users = -1 THEN 0
 ELSE CAST((user_count::float / max_users) * 100 AS INTEGER) END`
(`api_utilization` is the same formula on the other dimension). -/
def monUserUtilization (count maxUsers : Int) : Int :=
  if maxUsers = -1 then 0
  else pgFloatToInt (((count : ℚ) / (maxUsers : ℚ)) * 100)

/-- Modelled from the spec's words for comparison (refinement):
`round(count / limit * 100)`, with `round` the standard round-half-up
rounding on exact rationals. -/
def specRoundUtilization (count limit : Int) : Int :=
  round (((count : ℚ) / (limit : ℚ)) * 100)

/-- The limit shown in the report line:
the JS conditional printing the infinity sign when `max_users === -1`. -/
def limitDisplay (m : Int) : String :=
  if m = -1 then "∞" else toString m

/-! ## Claims -/

/-- C1 (counterexample): the production classifier `checkTenantLimits`
violates the claim: at `count = limit = 10` we have `count >= limit`,
but the returned status is HIGH, not EXCEEDED (the EXCEEDED branch uses
strict `>`). -/
theorem c1_counterexample :
    (10 : Int) ≥ 10 ∧
    prodStatusDim 10 (some 10) = .HIGH ∧
    prodStatusDim 10 (some 10) ≠ .EXCEEDED := by
  decide

/-- C1 (amended): the monitor classifier satisfies the claim exactly
(for `limit > 0`: `count >= limit` gives EXCEEDED, `limit*0.8 < count <
limit` gives HIGH, `count <= limit*0.8` gives OK); the production
classifier instead uses strict `count > limit` for EXCEEDED (so
`count = limit` gives HIGH) and warn bound `0.9`; both classifiers are
monotonically non-decreasing in the count for a fixed positive limit.
The decimal bounds `limit*0.8` / `limit*0.9` appear scaled by 10. -/
theorem c1_amended :
    (∀ count limit : Int, 0 < limit →
      (count ≥ limit → monStatusDim count (some limit) = .EXCEEDED) ∧
      (8 * limit < 10 * count → count < limit → monStatusDim count (some limit) = .HIGH) ∧
      (10 * count ≤ 8 * limit → monStatusDim count (some limit) = .OK)) ∧
    (∀ count limit : Int, 0 < limit →
      (count > limit → prodStatusDim count (some limit) = .EXCEEDED) ∧
      (count = limit → prodStatusDim count (some limit) = .HIGH) ∧
      (9 * limit < 10 * count → count < limit → prodStatusDim count (some limit) = .HIGH) ∧
      (10 * count ≤ 9 * limit → prodStatusDim count (some limit) = .OK)) ∧
    (∀ c1 c2 limit : Int, 0 < limit → c1 ≤ c2 →
      statusRank (monStatusDim c1 (some limit)) ≤ statusRank (monStatusDim c2 (some limit)) ∧
      statusRank (prodStatusDim c1 (some limit)) ≤ statusRank (prodStatusDim c2 (some limit))) := by
  refine ⟨?_, ?_, ?_⟩
  · intro count limit hl
    refine ⟨fun h => ?_, fun h1 h2 => ?_, fun h => ?_⟩ <;>
      simp only [monStatusDim, coalesceLimit, Option.getD] <;>
      split_ifs <;> first | rfl | omega
  · intro count limit hl
    refine ⟨fun h => ?_, fun h => ?_, fun h1 h2 => ?_, fun h => ?_⟩ <;>
      simp only [prodStatusDim, coalesceLimit, Option.getD, Option.some.injEq] <;>
      split_ifs <;> first | rfl | omega
  · intro c1 c2 limit hl hc
    constructor <;>
      simp only [monStatusDim, prodStatusDim, coalesceLimit, Option.getD,
        Option.some.injEq] <;>
      split_ifs <;> simp [statusRank] <;> omega

/-- C2: a limit of -1 on a dimension always classifies as UNLIMITED,
independent of the counts in the snapshot: for the monitor on both
dimensions (users, apiCalls) and for the production script (users). -/
theorem c2_unlimited :
    (∀ (db : Db) (t : TenantRow), t.limits_users = some (-1) →
      monUserStatus db t = .UNLIMITED) ∧
    (∀ (db : Db) (t : TenantRow), t.limits_apiCalls = some (-1) →
      monApiStatus db t = .UNLIMITED) ∧
    (∀ (db : Db) (t : TenantRow), t.limits_users = some (-1) →
      prodCapStatus db t = .UNLIMITED) := by
  refine ⟨fun db t h => ?_, fun db t h => ?_, fun db t h => ?_⟩
  · simp [monUserStatus, monStatusDim, coalesceLimit, h]
  · simp [monApiStatus, monStatusDim, coalesceLimit, h]
  · simp [prodCapStatus, prodStatusDim, h]

/-- C2 (witness): a tenant with both limits -1 and plenty of rows is
UNLIMITED on every dimension in both scripts. -/
theorem c2_witness :
    (⟨1, "Acme", "pro", "active", some (-1), some (-1)⟩ : TenantRow).limits_users
        = some (-1) ∧
    monUserStatus
        ⟨[⟨1, "Acme", "pro", "active", some (-1), some (-1)⟩],
         [⟨10, 1, "active"⟩, ⟨11, 1, "active"⟩, ⟨12, 1, "active"⟩],
         [⟨1, 5000, true⟩]⟩
        ⟨1, "Acme", "pro", "active", some (-1), some (-1)⟩ = .UNLIMITED ∧
    monApiStatus
        ⟨[⟨1, "Acme", "pro", "active", some (-1), some (-1)⟩],
         [⟨10, 1, "active"⟩, ⟨11, 1, "active"⟩, ⟨12, 1, "active"⟩],
         [⟨1, 5000, true⟩]⟩
        ⟨1, "Acme", "pro", "active", some (-1), some (-1)⟩ = .UNLIMITED ∧
    prodCapStatus
        ⟨[⟨1, "Acme", "pro", "active", some (-1), some (-1)⟩],
         [⟨10, 1, "active"⟩, ⟨11, 1, "active"⟩, ⟨12, 1, "active"⟩],
         [⟨1, 5000, true⟩]⟩
        ⟨1, "Acme", "pro", "active", some (-1), some (-1)⟩ = .UNLIMITED :=
  ⟨rfl,
   c2_unlimited.1 _ _ rfl,
   c2_unlimited.2.1 _ _ rfl,
   c2_unlimited.2.2 _ _ rfl⟩

/-- C5: the production process exits 0 exactly when the report says
production-ready; it exits 1 when the report says not ready, when a
check-level query failure occurred (which makes the report not ready),
and when the database connection could not be established (`none`). -/
theorem c5_exit_convention :
    (∀ e : ProdEnv, prodExitCode (some e) = 0 ↔ productionReady e = true) ∧
    prodExitCode none = 1 ∧
    (∀ (db : Db) (m : String) (cf hf : Option String),
      prodExitCode (some ⟨db, some m, cf, hf⟩) = 1) := by
  refine ⟨fun e => ?_, rfl, fun db m cf hf => ?_⟩
  · by_cases h : productionReady e <;> simp [prodExitCode, h]
  · simp [prodExitCode, productionReady, prodIssues, prodCheckIsoIssues]

/-- C6: a query failure in one check is reported as a check-level
failure message localized to that check, while the other checks of the
same pass still contribute their results (shown for a failing isolation
check and a failing capacity check); a connection failure aborts the
run before any check and exits 1. -/
theorem c6_failure_localization :
    (∀ (db : Db) (m : String),
      prodIssues ⟨db, some m, none, none⟩ =
        ("Isolation check failure: " ++ m) ::
          (prodCheckCapIssues ⟨db, none, none, none⟩ ++
            prodCheckHealthIssues ⟨db, none, none, none⟩)) ∧
    (∀ (db : Db) (m : String),
      prodIssues ⟨db, none, some m, none⟩ =
        prodCheckIsoIssues ⟨db, none, none, none⟩ ++
          ("Capacity check failure: " ++ m) ::
            prodCheckHealthIssues ⟨db, none, none, none⟩) ∧
    prodExitCode none = 1 := by
  refine ⟨fun db m => rfl, fun db m => ?_, rfl⟩
  simp [prodIssues, prodCheckIsoIssues, prodCheckCapIssues, prodCheckHealthIssues]

/-- C1 (witness): concrete classifications at limit 10 for both
classifiers, and monotonicity between counts 3 and 12. -/
theorem c1_witness :
    ((0 : Int) < 10 ∧ (12 : Int) ≥ 10 ∧ monStatusDim 12 (some 10) = .EXCEEDED) ∧
    monStatusDim 9 (some 10) = .HIGH ∧
    monStatusDim 8 (some 10) = .OK ∧
    prodStatusDim 11 (some 10) = .EXCEEDED ∧
    prodStatusDim 10 (some 10) = .HIGH ∧
    prodStatusDim 9 (some 10) = .OK ∧
    statusRank (monStatusDim 3 (some 10)) ≤ statusRank (monStatusDim 12 (some 10)) ∧
    statusRank (prodStatusDim 3 (some 10)) ≤ statusRank (prodStatusDim 12 (some 10)) :=
  ⟨⟨by decide, by decide, (c1_amended.1 12 10 (by decide)).1 (by decide)⟩,
   (c1_amended.1 9 10 (by decide)).2.1 (by decide) (by decide),
   (c1_amended.1 8 10 (by decide)).2.2 (by decide),
   (c1_amended.2.1 11 10 (by decide)).1 (by decide),
   (c1_amended.2.1 10 10 (by decide)).2.1 (by decide),
   (c1_amended.2.1 9 10 (by decide)).2.2.2 (by decide),
   (c1_amended.2.2 3 12 10 (by decide) (by decide)).1,
   (c1_amended.2.2 3 12 10 (by decide) (by decide)).2⟩
/-- A `filterMap` with an if-then-some body acts as `map` on a list all
of whose elements satisfy the condition. -/
theorem filterMap_if_all_pos {α β : Type} (p : α → Bool) (g : α → β) :
    ∀ l : List α, (∀ x ∈ l, p x = true) →
      l.filterMap (fun x => if p x then some (g x) else none) = l.map g := by
  intro l h
  induction l with
  | nil => rfl
  | cons a l ih =>
    have ha := h a (List.mem_cons_self a l)
    simp [List.filterMap_cons, ha, ih (fun x hx => h x (List.mem_cons_of_mem a hx))]

/-- A `filterMap` with an if-then-some body drops every element of a
list none of whose elements satisfies the condition. -/
theorem filterMap_if_all_neg {α β : Type} (p : α → Bool) (g : α → β) :
    ∀ l : List α, (∀ x ∈ l, p x = false) →
      l.filterMap (fun x => if p x then some (g x) else none) = [] := by
  intro l h
  induction l with
  | nil => rfl
  | cons a l ih =>
    have ha := h a (List.mem_cons_self a l)
    simp [List.filterMap_cons, ha, ih (fun x hx => h x (List.mem_cons_of_mem a hx))]

/-- The capacity check pushes exactly one issue per EXCEEDED tenant (in
order); HIGH and OK tenants contribute nothing. -/
theorem prodCapIssues_eq (db : Db) :
    prodCapIssues db =
      (prodExceededTenants db).map (fun t => "Tenant capacity exceeded: " ++ t.name) := by
  have hpos : ∀ t ∈ prodExceededTenants db, (prodCapStatus db t == .EXCEEDED) = true :=
    fun t ht => (List.mem_filter.mp ht).2
  have hneg1 : ∀ t ∈ prodHighTenants db, (prodCapStatus db t == .EXCEEDED) = false := by
    intro t ht
    have h2 : prodCapStatus db t = .HIGH := by simpa using (List.mem_filter.mp ht).2
    simp [h2]
  have hneg2 : ∀ t ∈ db.activeTenants.filter
      (fun t => !(prodCapStatus db t == .EXCEEDED) && !(prodCapStatus db t == .HIGH)),
      (prodCapStatus db t == .EXCEEDED) = false := by
    intro t ht
    have h2 := (List.mem_filter.mp ht).2
    simp only [Bool.and_eq_true, Bool.not_eq_true'] at h2
    exact h2.1
  unfold prodCapIssues prodSortedCapRows
  rw [List.filterMap_append, List.filterMap_append,
    filterMap_if_all_pos _ _ _ hpos, filterMap_if_all_neg _ _ _ hneg1,
    filterMap_if_all_neg _ _ _ hneg2]
  simp

/-- C3 (counterexample): on an empty snapshot there are no isolation
violations and no EXCEEDED tenant, yet the production report is not
ready (the database-health check records an issue), so the claimed
equivalence fails. -/
theorem c3_counterexample :
    prodIsolationRows ⟨[], [], []⟩ = [] ∧
    prodExceededTenants ⟨[], [], []⟩ = [] ∧
    productionReady ⟨⟨[], [], []⟩, none, none, none⟩ = false := by
  decide

/-- C3 (amended): on a pass whose queries all succeed, the production
report is ready iff there are no isolation violations, no tenant is
EXCEEDED, and at least one active tenant exists; capacity issues come
from EXCEEDED tenants only, so HIGH (warning) tenants never block. -/
theorem c3_amended :
    (∀ db : Db,
      productionReady ⟨db, none, none, none⟩ = true ↔
        (prodIsolationRows db = [] ∧ prodExceededTenants db = [] ∧
          0 < activeTenantCount db)) ∧
    (∀ db : Db,
      prodCheckCapIssues ⟨db, none, none, none⟩ = [] ↔ prodExceededTenants db = []) := by
  have hcap : ∀ db : Db,
      prodCheckCapIssues ⟨db, none, none, none⟩ = [] ↔ prodExceededTenants db = [] := by
    intro db
    show prodCapIssues db = [] ↔ _
    rw [prodCapIssues_eq]
    simp
  refine ⟨fun db => ?_, hcap⟩
  have hsplit : productionReady ⟨db, none, none, none⟩ = true ↔
      (prodIsoIssues db = [] ∧ prodCapIssues db = [] ∧ prodHealthIssues db = []) := by
    simp [productionReady, prodIssues, prodCheckIsoIssues, prodCheckCapIssues,
      prodCheckHealthIssues, List.isEmpty_iff, List.append_eq_nil]
  rw [hsplit]
  have h1 : prodIsoIssues db = [] ↔ prodIsolationRows db = [] := by
    simp [prodIsoIssues]
  have h2 : prodCapIssues db = [] ↔ prodExceededTenants db = [] := by
    rw [prodCapIssues_eq]; simp
  have h3 : prodHealthIssues db = [] ↔ 0 < activeTenantCount db := by
    by_cases h : activeTenantCount db = 0
    · simp [prodHealthIssues, h]
    · simp [prodHealthIssues, h]
      omega
  rw [h1, h2, h3]

/-- C10: with zero active tenants the database-health check records the
issue `No active tenants in database`, the report is not ready, and the
process exits 1, even though there is no isolation violation and no
capacity violation (the only issue of the pass is that one). -/
theorem c10_no_active_tenants :
    ∀ db : Db, activeTenantCount db = 0 →
      prodIssues ⟨db, none, none, none⟩ = ["No active tenants in database"] ∧
      productionReady ⟨db, none, none, none⟩ = false ∧
      prodExitCode (some ⟨db, none, none, none⟩) = 1 := by
  intro db h
  have hact : db.activeTenants = [] := List.length_eq_zero.mp h
  have hiso : prodIsoIssues db = [] := by
    simp [prodIsoIssues, prodIsolationRows, hact]
  have hcap : prodCapIssues db = [] := by
    rw [prodCapIssues_eq]
    simp [prodExceededTenants, hact]
  have hhealth : prodHealthIssues db = ["No active tenants in database"] := by
    simp [prodHealthIssues, h]
  have hiss : prodIssues ⟨db, none, none, none⟩ = ["No active tenants in database"] := by
    simp [prodIssues, prodCheckIsoIssues, prodCheckCapIssues, prodCheckHealthIssues,
      hiso, hcap, hhealth]
  exact ⟨hiss, by simp [productionReady, hiss], by simp [prodExitCode, productionReady, hiss]⟩

/-- C10 (witness): a snapshot with a single suspended tenant has zero
active tenants; the run records exactly the no-active-tenants issue and
exits 1. -/
theorem c10_witness :
    activeTenantCount ⟨[⟨1, "Idle", "basic", "suspended", none, none⟩], [], []⟩ = 0 ∧
    (prodIssues ⟨⟨[⟨1, "Idle", "basic", "suspended", none, none⟩], [], []⟩,
          none, none, none⟩ = ["No active tenants in database"] ∧
      productionReady ⟨⟨[⟨1, "Idle", "basic", "suspended", none, none⟩], [], []⟩,
          none, none, none⟩ = false ∧
      prodExitCode (some ⟨⟨[⟨1, "Idle", "basic", "suspended", none, none⟩], [], []⟩,
          none, none, none⟩) = 1) :=
  ⟨by decide, c10_no_active_tenants _ (by decide)⟩
/-- C4 (counterexample): a `tenant_users` row with `tenant_id = 99` and
no tenant 99: the production script counts it in the orphan query, but
its isolation check returns no violation, no issue is pushed (orphans
only log a warning), and the run is production-ready with exit code 0 —
contradicting the claim that `productionReady` is false. -/
theorem c4_counterexample :
    orphanUserCount ⟨[⟨1, "Acme", "basic", "active", none, none⟩],
        [⟨7, 99, "active"⟩], []⟩ = 1 ∧
    prodIsolationRows ⟨[⟨1, "Acme", "basic", "active", none, none⟩],
        [⟨7, 99, "active"⟩], []⟩ = [] ∧
    productionReady ⟨⟨[⟨1, "Acme", "basic", "active", none, none⟩],
        [⟨7, 99, "active"⟩], []⟩, none, none, none⟩ = true ∧
    prodExitCode (some ⟨⟨[⟨1, "Acme", "basic", "active", none, none⟩],
        [⟨7, 99, "active"⟩], []⟩, none, none, none⟩) = 0 := by
  decide

/-- C4 (amended): an orphaned child record is never silently ignored —
in the monitor it always yields an orphaned-records entry in the
isolation check's violation list (non-empty) and an unhealthy report;
in the production script it is detected by the orphan count of the
database-health check but contributes no issue: the issue list (hence
`productionReady`) is unchanged by adding an orphaned row. -/
theorem c4_amended :
    (∀ (db : Db) (tu : TenantUserRow), tu ∈ db.tenant_users →
      (∀ t ∈ db.tenants, t.id ≠ tu.tenant_id) →
      0 < orphanUserCount db ∧
      monViolations db ≠ [] ∧
      (monRun db []).2.healthy = false) ∧
    (∀ (db : Db) (tu : TenantUserRow),
      (∀ t ∈ db.tenants, t.id ≠ tu.tenant_id) →
      prodIssues ⟨⟨db.tenants, tu :: db.tenant_users, db.tenant_usage_stats⟩,
          none, none, none⟩ =
        prodIssues ⟨db, none, none, none⟩) := by
  constructor
  · intro db tu htu horph
    have hany : (db.tenants.any (fun t => t.id == tu.tenant_id)) = false := by
      rw [List.any_eq_false]
      intro t ht
      simpa using horph t ht
    have hmem : tu ∈ db.tenant_users.filter
        (fun tu => !(db.tenants.any (fun t => t.id == tu.tenant_id))) := by
      refine List.mem_filter.mpr ⟨htu, ?_⟩
      simp [hany]
    have h1 : 0 < orphanUserCount db := by
      unfold orphanUserCount
      exact List.length_pos.mpr (List.ne_nil_of_mem hmem)
    have h2 : monViolations db ≠ [] := by
      intro heq
      unfold monViolations at heq
      rw [if_pos h1] at heq
      simp [List.append_eq_nil] at heq
    have h3 : (monViolations db).isEmpty = false := by
      simpa [List.isEmpty_iff] using h2
    refine ⟨h1, h2, ?_⟩
    simp [monRun, monGenerateReport, monRunAlerts, monIsoAlerts, h3, List.filter_cons]
  · intro db tu horph
    have hbeq : ∀ t ∈ db.tenants, (tu.tenant_id == t.id) = false := by
      intro t ht
      rw [beq_eq_false_iff_ne]
      exact fun h => (horph t ht) h.symm
    have hmemT : ∀ t ∈ db.activeTenants, t ∈ db.tenants :=
      fun t ht => (List.mem_filter.mp ht).1
    have hmm : ∀ t ∈ db.activeTenants,
        isolationMismatchCount
            ⟨db.tenants, tu :: db.tenant_users, db.tenant_usage_stats⟩ t =
          isolationMismatchCount db t := by
      intro t ht
      unfold isolationMismatchCount
      simp [List.filter_cons, hbeq t (hmemT t ht)]
    have hrows : prodIsolationRows
          ⟨db.tenants, tu :: db.tenant_users, db.tenant_usage_stats⟩ =
        prodIsolationRows db := by
      unfold prodIsolationRows
      exact List.filter_congr (fun t ht => by rw [hmm t ht])
    have hauc : ∀ t ∈ db.activeTenants,
        activeUserCount ⟨db.tenants, tu :: db.tenant_users, db.tenant_usage_stats⟩ t =
          activeUserCount db t := by
      intro t ht
      unfold activeUserCount
      simp [List.filter_cons, hbeq t (hmemT t ht)]
    have hst : ∀ t ∈ db.activeTenants,
        prodCapStatus ⟨db.tenants, tu :: db.tenant_users, db.tenant_usage_stats⟩ t =
          prodCapStatus db t := by
      intro t ht
      unfold prodCapStatus
      rw [hauc t ht]
    have hex : prodExceededTenants
          ⟨db.tenants, tu :: db.tenant_users, db.tenant_usage_stats⟩ =
        prodExceededTenants db := by
      unfold prodExceededTenants
      exact List.filter_congr (fun t ht => by rw [hst t ht])
    have hcap2 : prodCapIssues
          ⟨db.tenants, tu :: db.tenant_users, db.tenant_usage_stats⟩ =
        prodCapIssues db := by
      rw [prodCapIssues_eq, prodCapIssues_eq, hex]
    have hcount : activeTenantCount
          ⟨db.tenants, tu :: db.tenant_users, db.tenant_usage_stats⟩ =
        activeTenantCount db := rfl
    simp [prodIssues, prodCheckIsoIssues, prodCheckCapIssues, prodCheckHealthIssues,
      prodIsoIssues, hrows, hcap2, prodHealthIssues, hcount]

/-- C4 (witness): the orphaned row of the counterexample snapshot makes
the monitor's violation list non-empty and its report unhealthy. -/
theorem c4_witness :
    (⟨7, 99, "active"⟩ : TenantUserRow) ∈
        (⟨[⟨1, "Acme", "basic", "active", none, none⟩], [⟨7, 99, "active"⟩],
          []⟩ : Db).tenant_users ∧
    (0 < orphanUserCount ⟨[⟨1, "Acme", "basic", "active", none, none⟩],
        [⟨7, 99, "active"⟩], []⟩ ∧
      monViolations ⟨[⟨1, "Acme", "basic", "active", none, none⟩],
        [⟨7, 99, "active"⟩], []⟩ ≠ [] ∧
      (monRun ⟨[⟨1, "Acme", "basic", "active", none, none⟩],
        [⟨7, 99, "active"⟩], []⟩ []).2.healthy = false) :=
  ⟨by decide, c4_amended.1 _ ⟨7, 99, "active"⟩ (by decide) (by decide)⟩

/-- A snapshot with one active tenant over its user limit (used by the
C9 theorems). -/
def overLimitDb : Db :=
  ⟨[⟨1, "Acme", "basic", "active", some 1, none⟩],
   [⟨10, 1, "active"⟩, ⟨11, 1, "active"⟩], []⟩

/-- C9 (counterexample): the monitor instance keeps its
`healthMetrics.alerts` array across runs, so a second
`runFullHealthCheck` on the same instance over the unchanged snapshot
reports 2 critical alerts instead of 1 — the two reports differ. -/
theorem c9_counterexample :
    (monRun overLimitDb []).2.criticalAlerts = 1 ∧
    (monRun overLimitDb (monRun overLimitDb []).1).2.criticalAlerts = 2 ∧
    (monRun overLimitDb (monRun overLimitDb []).1).2 ≠ (monRun overLimitDb []).2 := by
  decide

/-- C9 (amended): a run is a pure function of the snapshot, and on a
fresh instance (empty alerts array) re-running over an unchanged
snapshot yields the identical report whenever the run pushes no alerts;
with any finding, the accumulated alerts array makes the second
report's counts differ (see the counterexample). -/
theorem c9_amended :
    ∀ db : Db, monRunAlerts db = [] →
      (monRun db (monRun db []).1).2 = (monRun db []).2 := by
  intro db h
  simp [monRun, h]

/-- A violation-free snapshot (used by the C9 witness). -/
def cleanDb : Db :=
  ⟨[⟨1, "Acme", "basic", "active", none, none⟩], [⟨10, 1, "active"⟩], []⟩

/-- C9 (witness): on the clean snapshot the run pushes no alerts and a
second run on the same instance yields the identical report. -/
theorem c9_witness :
    monRunAlerts cleanDb = [] ∧
    (monRun cleanDb (monRun cleanDb []).1).2 = (monRun cleanDb []).2 :=
  ⟨by decide, c9_amended cleanDb (by decide)⟩

/-- The rounding of `pgFloatToInt` is always within 1/2 of its
argument. -/
theorem pgFloatToInt_close (q : ℚ) : |(pgFloatToInt q : ℚ) - q| ≤ 1 / 2 := by
  have h0 : ((⌊q⌋ : ℤ) : ℚ) ≤ q := Int.floor_le q
  have h1 : q < ((⌊q⌋ : ℤ) : ℚ) + 1 := Int.lt_floor_add_one q
  unfold pgFloatToInt
  split_ifs with ha hb hc <;> rw [abs_le] <;> constructor <;> push_cast <;> linarith

/-- C7 (counterexample): at `count = 1`, `limit = 8` the exact
percentage is 12.5; the code's float-to-integer cast rounds ties to
even and reports 12, while the claimed `round` (round half up) gives
13. -/
theorem c7_counterexample :
    monUserUtilization 1 8 = 12 ∧ specRoundUtilization 1 8 = 13 ∧
    monUserUtilization 1 8 ≠ specRoundUtilization 1 8 := by
  have h1 : monUserUtilization 1 8 = 12 := by
    unfold monUserUtilization pgFloatToInt
    norm_num
  have h2 : specRoundUtilization 1 8 = 13 := by
    unfold specRoundUtilization
    rw [round_eq]
    norm_num
  exact ⟨h1, h2, by rw [h1, h2]; decide⟩

/-- C7 (amended): for a finite positive limit the reported utilization
percentage is `count / limit * 100` rounded to the nearest integer
(ties to even, the float8-to-int cast), hence within 1/2 of the exact
percentage; for `limit = -1` the percentage is reported as 0 (not
undefined) and the limit is displayed as the unlimited symbol. -/
theorem c7_amended :
    (∀ count m : Int, 0 < m →
      |(monUserUtilization count m : ℚ) - ((count : ℚ) / (m : ℚ)) * 100| ≤ 1 / 2) ∧
    (∀ count : Int, monUserUtilization count (-1) = 0) ∧
    limitDisplay (-1) = "∞" := by
  refine ⟨fun count m hm => ?_, fun count => ?_, rfl⟩
  · unfold monUserUtilization
    rw [if_neg (by omega : ¬ m = -1)]
    exact pgFloatToInt_close _
  · simp [monUserUtilization]

/-- C7 (witness): at `count = 1`, `limit = 8` the reported percentage
is within 1/2 of the exact 12.5. -/
theorem c7_witness :
    (0 : Int) < 8 ∧
    |(monUserUtilization 1 8 : ℚ) - (((1 : Int) : ℚ) / ((8 : Int) : ℚ)) * 100| ≤ 1 / 2 :=
  ⟨by decide, c7_amended.1 1 8 (by decide)⟩

/-- C8: on every row the leakage query can produce, the property access
`row.mismatched_subscriptions` yields no value (the key is not among
the row's columns), the interpolated message therefore renders the
literal `undefined` in the subscription slot and never depends on the
row's `mismatched_usage` count. -/
theorem c8_subscription_field :
    (∀ r : LeakageRow, jsGet r ("mismatched_subscriptions") = none) ∧
    (∀ (r : LeakageRow) (v : Int),
      leakageViolationMessage ⟨r.tenant_id, r.tenant_name, r.mismatched_users, v⟩ =
        leakageViolationMessage r) ∧
    leakageViolationMessage ⟨1, "Acme", 2, 3⟩ =
      "Tenant Acme: 2 user violations, undefined subscription violations" := by
  refine ⟨fun r => rfl, fun r v => rfl, by decide⟩
end NsInfra
